import Mathlib

/-!
Verification of the two command-line scripts of the repository
(`gemini.py`, the search-augmented chat pipeline, and `img_gen.py`,
the speech-to-image pipeline) against their natural-language
specification.  Each Python function is shallowly embedded as a Lean
definition; the outcomes of outbound HTTP calls, the file system and
the environment are explicit parameters, so every definition is a pure,
executable function of the world it observes.
-/

/-- Equality of raised-or-returned outcomes is decidable, so concrete
runs can be checked by evaluation. -/
instance {ε α : Type} [DecidableEq ε] [DecidableEq α] : DecidableEq (Except ε α) :=
  fun a b =>
    match a, b with
    | .ok x, .ok y => decidable_of_iff (x = y) (by simp)
    | .error x, .error y => decidable_of_iff (x = y) (by simp)
    | .ok _, .error _ => isFalse (by simp)
    | .error _, .ok _ => isFalse (by simp)

/-! ## Embedding of `gemini.py` -/

/-- The keyword list of `gemini.py` line 12:
`REAL_TIME_KEYWORDS = ["current", "price", "weather", "today", "now", "live"]`. -/
def REAL_TIME_KEYWORDS : List String :=
  ["current", "price", "weather", "today", "now", "live"]

/-- Python `needle` starting-match on character lists: `charsStart n h`
is true when `n` is an initial segment of `h`.  Helper for the embedding
of Python's substring operator `in`. -/
def charsStart : List Char → List Char → Bool
  | [], _ => true
  | _ :: _, [] => false
  | a :: as, b :: bs => a == b && charsStart as bs

/-- Embedding of Python's substring test `needle in haystack` on
character lists: true when `needle` occurs contiguously in `haystack`. -/
def strIn (needle : List Char) : List Char → Bool
  | [] => needle.isEmpty
  | b :: bs => charsStart needle (b :: bs) || strIn needle bs

/-- Embedding of Python's `str.lower()`: every character lower-cased,
written directly on the character list of the string. -/
def py_lower (s : String) : String :=
  ⟨s.data.map Char.toLower⟩

/-- Embedding of `is_real_time_query` (`gemini.py` lines 14-24):
`any(keyword in user_input.lower() for keyword in REAL_TIME_KEYWORDS)`. -/
def is_real_time_query (user_input : String) : Bool :=
  REAL_TIME_KEYWORDS.any (fun keyword => strIn keyword.data (py_lower user_input).data)

/-- One item of the search provider's JSON response: a (title, snippet)
pair, as read by `fetch_search_results` (`gemini.py` line 52). -/
structure SearchItem where
  title : String
  snippet : String
deriving DecidableEq, Repr

/-- Outcome of the single HTTP GET performed by `fetch_search_results`
(`gemini.py` lines 44-47).  `requestError msg` stands for a
`requests.RequestException` (transport failure or, via
`raise_for_status`, a non-success HTTP status) whose `str` text is
`msg`; `success items` stands for a success response whose parsed
`items` list is `items` (a missing `items` key is `success []`,
matching `data.get("items", [])`). -/
inductive FetchOutcome where
  | requestError (msg : String)
  | success (items : List SearchItem)
deriving DecidableEq, Repr

/-- Embedding of `fetch_search_results` (`gemini.py` lines 26-55) as a
function of the HTTP outcome.  On a `requests.RequestException` it
raises `Exception("Error fetching search results: " + str(e))`; on
success with no items it returns the sentinel; otherwise it returns the
header plus the first three items formatted `- title: snippet` and
joined with newlines. -/
def fetch_search_results (outcome : FetchOutcome) : Except String String :=
  match outcome with
  | .requestError msg => .error ("Error fetching search results: " ++ msg)
  | .success items =>
    if items.isEmpty then
      .ok "No relevant search results found."
    else
      .ok ("Real-time data from search:\n" ++
        String.intercalate "\n"
          ((items.take 3).map (fun item => "- " ++ item.title ++ ": " ++ item.snippet)))

/-- The prompt-composition part of `generate_response`
(`gemini.py` lines 71-78): the raw message when the classifier says no;
otherwise the message, a blank line and either the search summary or
the error note built from the text of the exception raised by
`fetch_search_results`. -/
def compose_prompt (user_input : String) (outcome : FetchOutcome) : String :=
  if is_real_time_query user_input then
    match fetch_search_results outcome with
    | .ok search_data => user_input ++ "\n\n" ++ search_data
    | .error e =>
        user_input ++ "\n\nNote: Could not fetch real-time data due to error: " ++ e
  else user_input

/-- Embedding of `generate_response` (`gemini.py` lines 57-84).  The
chat session is abstracted as `send`, the function from the prompt sent
to the provider's reply (`Except.error` standing for a raised
exception, which lines 83-84 wrap). -/
def generate_response (user_input : String) (outcome : FetchOutcome)
    (send : String → Except String String) : Except String String :=
  match send (compose_prompt user_input outcome) with
  | .ok reply => .ok reply
  | .error e => .error ("Error generating response with Gemini: " ++ e)

/-! ## Characterization lemmas for the substring helper -/

theorem charsStart_iff (needle hay : List Char) :
    charsStart needle hay = true ↔ ∃ rest, hay = needle ++ rest := by
  induction needle generalizing hay with
  | nil => simp [charsStart]
  | cons a as ih =>
    cases hay with
    | nil => simp [charsStart]
    | cons b bs =>
      simp only [charsStart, Bool.and_eq_true, beq_iff_eq, ih, List.cons_append,
        List.cons.injEq]
      constructor
      · rintro ⟨rfl, rest, rfl⟩
        exact ⟨rest, rfl, rfl⟩
      · rintro ⟨rest, rfl, rfl⟩
        exact ⟨rfl, rest, rfl⟩

theorem strIn_iff (needle hay : List Char) :
    strIn needle hay = true ↔ ∃ pre post, hay = pre ++ needle ++ post := by
  induction hay with
  | nil =>
    simp only [strIn, List.isEmpty_iff]
    constructor
    · rintro rfl
      exact ⟨[], [], rfl⟩
    · rintro ⟨pre, post, h⟩
      rcases List.append_eq_nil.mp h.symm with ⟨h1, -⟩
      exact (List.append_eq_nil.mp h1).2
  | cons b bs ih =>
    simp only [strIn, Bool.or_eq_true, charsStart_iff, ih]
    constructor
    · rintro (⟨rest, h⟩ | ⟨pre, post, h⟩)
      · exact ⟨[], rest, by simp [h]⟩
      · exact ⟨b :: pre, post, by simp [h]⟩
    · rintro ⟨pre, post, h⟩
      cases pre with
      | nil =>
        exact Or.inl ⟨post, by simpa using h⟩
      | cons c cs =>
        rcases List.cons.injEq .. ▸ h with ⟨-, h2⟩
        exact Or.inr ⟨cs, post, by simpa using h2⟩

/-! ## Embedding of `img_gen.py` -/

/-- Embedding of `get_api_key` (`img_gen.py` lines 38-43).
`argKey` is `args.api_key` (None when the flag is absent), `envKey` is
`os.getenv("MONSTER_API_KEY")`.  Python's `args.api_key or os.getenv(...)`
falls through on a falsy (empty) flag value, and `if not key` rejects a
missing or empty result. -/
def get_api_key (argKey envKey : Option String) : Except String String :=
  let key := match argKey with
    | some s => if s = "" then envKey else some s
    | none => envKey
  match key with
  | some s =>
      if s = "" then
        .error "MonsterAPI key not provided. Use --api_key or set MONSTER_API_KEY env var."
      else .ok s
  | none =>
      .error "MonsterAPI key not provided. Use --api_key or set MONSTER_API_KEY env var."

/-- Embedding of `mask_key` (`img_gen.py` lines 45-47):
`key[:4] + "*" * (len(key) - 8) + key[-4:] if len(key) > 8 else "*" * len(key)`. -/
def mask_key (key : String) : String :=
  if key.length > 8 then
    ⟨key.data.take 4⟩ ++ ⟨List.replicate (key.length - 8) '*'⟩ ++
      ⟨key.data.drop (key.length - 4)⟩
  else ⟨List.replicate key.length '*'⟩

/-- What the file system reports about one path, as observed by
`validate_audio`: the path does not exist (`os.path.exists` false), it
exists but is not a regular file (`os.path.isfile` false), or it is a
regular file and opening it and reading its first byte either succeeds
or raises an I/O error whose text is carried by `Except.error`. -/
inductive FileKind where
  | absent
  | notRegularFile
  | regularFile (readFirstByte : Except String Unit)
deriving DecidableEq, Repr

/-- Embedding of `validate_audio` (`img_gen.py` lines 49-69) as a
function of what the file system reports for `input_path`.  The three
error texts are the `FileNotFoundError`, `ValueError` and wrapped
read-failure messages of lines 60, 62 and 68. -/
def validate_audio (input_path : String) (kind : FileKind) : Except String Unit :=
  match kind with
  | .absent => .error ("Audio file not found: " ++ input_path)
  | .notRegularFile => .error ("Path is not a file: " ++ input_path)
  | .regularFile (.error e) => .error ("Audio file not readable: " ++ e)
  | .regularFile (.ok _) => .ok ()

/-- The transcription endpoint's response as `transcribe_audio` reads
it: HTTP status, raw body text, and the parsed `text` field
(`none` when the key is missing, matching `result.get("text", "")`). -/
structure TranscribeResp where
  status : Nat
  body : String
  textField : Option String
deriving DecidableEq, Repr

/-- Embedding of Python's `str.strip()`: leading and trailing
whitespace characters removed, written on the character list of the
string. -/
def py_strip (s : String) : String :=
  ⟨((s.data.dropWhile Char.isWhitespace).reverse.dropWhile Char.isWhitespace).reverse⟩

/-- Embedding of `transcribe_audio` (`img_gen.py` lines 71-98) as a
function of the provider response: non-200 status raises with the
status and body; a blank (after `strip()`) text field raises
`"No transcript generated."`; otherwise the stripped text is returned. -/
def transcribe_audio (resp : TranscribeResp) : Except String String :=
  if resp.status ≠ 200 then
    .error ("Transcription failed: " ++ toString resp.status ++ " - " ++ resp.body)
  else if py_strip (resp.textField.getD "") = "" then
    .error "No transcript generated."
  else .ok (py_strip (resp.textField.getD ""))

/-- The image-generation endpoint's response as `generate_image` reads
it: HTTP status, raw body text, and the parsed `output` field —
`none` when the key is missing (Python substitutes the default
`[None]`), otherwise the list, whose elements may themselves be JSON
null (`none`). -/
structure GenResp where
  status : Nat
  body : String
  output : Option (List (Option String))
deriving DecidableEq, Repr

/-- Result of one run of `generate_image`: the returned value or raised
exception text, the number of HTTP calls it performed (the generation
POST, plus the download GET when reached), and whether it wrote the
output file. -/
structure GenOutcome where
  result : Except String String
  calls : Nat
  wrote : Bool
deriving DecidableEq, Repr

/-- Embedding of `generate_image` (`img_gen.py` lines 100-139) as a
function of the generation response and the download status.  Note
line 129, `image_url = result.get("output", [None])[0]`: a missing
`output` key yields `None` and hence the `"No image URL in response."`
exception, but a present and empty `output` list makes `[0]` raise
`IndexError("list index out of range")` instead. -/
def generate_image (_prompt : String) (resp : GenResp) (dlStatus : Nat)
    (output_path : String) : GenOutcome :=
  if resp.status ≠ 200 then
    ⟨.error ("Image generation failed: " ++ toString resp.status ++ " - " ++ resp.body),
      1, false⟩
  else
    match resp.output with
    | some [] => ⟨.error "list index out of range", 1, false⟩
    | none => ⟨.error "No image URL in response.", 1, false⟩
    | some (none :: _) => ⟨.error "No image URL in response.", 1, false⟩
    | some (some url :: _) =>
      if url = "" then ⟨.error "No image URL in response.", 1, false⟩
      else if dlStatus ≠ 200 then ⟨.error "Failed to download image.", 2, false⟩
      else ⟨.ok output_path, 2, true⟩

/-- The parsed command line of the script (`img_gen.py` lines 142-147):
`--audio` (required), `--out` (default `"output.png"`), optional
`--api_key`, and the `--dry_run` flag. -/
structure Args where
  audio : String
  out : String
  api_key : Option String
  dry_run : Bool
deriving DecidableEq, Repr

/-- The environment as the script reads it: `os.getenv("MONSTER_API_KEY")`. -/
structure Env where
  monster_api_key : Option String
deriving DecidableEq, Repr

/-- Everything outside the process that one run of `main` can observe:
the file system and the three provider responses. -/
structure World where
  fs : String → FileKind
  transcribe : TranscribeResp
  gen : GenResp
  dlStatus : Nat

/-- Observable outcome of one run of `main`: process exit status,
number of outbound HTTP calls performed, the lines written to stderr,
and whether the output image file was written. -/
structure RunResult where
  exitCode : Nat
  networkCalls : Nat
  stderrLines : List String
  outputWritten : Bool
deriving DecidableEq, Repr

/-- Embedding of `main` (`img_gen.py` lines 141-175).  The `try` body
resolves the key first, then either dry-run-validates and returns, or
validates, transcribes and generates; any raised exception is printed
as one `Error: ...` line on stderr and the process exits with status 1
(line 173-175), otherwise it exits with status 0. -/
def run_main (args : Args) (env : Env) (w : World) : RunResult :=
  match get_api_key args.api_key env.monster_api_key with
  | .error e => ⟨1, 0, ["Error: " ++ e], false⟩
  | .ok _key =>
    if args.dry_run then
      match validate_audio args.audio (w.fs args.audio) with
      | .ok _ => ⟨0, 0, [], false⟩
      | .error e => ⟨1, 0, ["Error: " ++ e], false⟩
    else
      match validate_audio args.audio (w.fs args.audio) with
      | .error e => ⟨1, 0, ["Error: " ++ e], false⟩
      | .ok _ =>
        match transcribe_audio w.transcribe with
        | .error e => ⟨1, 1, ["Error: " ++ e], false⟩
        | .ok transcript =>
          let g := generate_image transcript w.gen w.dlStatus args.out
          match g.result with
          | .error e => ⟨1, 1 + g.calls, ["Error: " ++ e], g.wrote⟩
          | .ok _ => ⟨0, 1 + g.calls, [], g.wrote⟩

/-! ## Claims about the chat pipeline -/

/-- C2: for every string message, `is_real_time_query` returns true if
and only if the lower-cased message contains, as a substring, at least
one keyword of the fixed set {"current", "price", "weather", "today",
"now", "live"}; it is a total pure function. -/
theorem is_real_time_query_iff_keyword (m : String) :
    is_real_time_query m = true ↔
      ∃ k ∈ REAL_TIME_KEYWORDS, ∃ pre post,
        (py_lower m).data = pre ++ k.data ++ post := by
  simp only [is_real_time_query, List.any_eq_true, strIn_iff]

/-- The two halves of the note literal of `gemini.py` line 78
concatenate back to it. -/
theorem note_literal_split :
    ("\n\n" : String) ++ "Note: Could not fetch real-time data due to error: " =
      "\n\nNote: Could not fetch real-time data due to error: " := by
  decide

/-- C1: for every message classified as real-time, if the search fetch
raises any error, the composed prompt is the message, a blank line, the
literal prefix "Note: Could not fetch real-time data due to error: "
and the error's text; the turn does not abort — the composed prompt is
still sent to the chat session and its reply is returned. -/
theorem realtime_search_error_note (msg err reply : String) (o : FetchOutcome)
    (send : String → Except String String)
    (hrt : is_real_time_query msg = true)
    (hf : fetch_search_results o = .error err)
    (hsend : send (msg ++ "\n\n" ++
        "Note: Could not fetch real-time data due to error: " ++ err) = .ok reply) :
    compose_prompt msg o =
      msg ++ "\n\n" ++ "Note: Could not fetch real-time data due to error: " ++ err ∧
    generate_response msg o send = .ok reply := by
  have hc : compose_prompt msg o =
      msg ++ "\n\n" ++ "Note: Could not fetch real-time data due to error: " ++ err := by
    rw [String.append_assoc msg, note_literal_split]
    simp [compose_prompt, hrt, hf]
  exact ⟨hc, by simp [generate_response, hc, hsend]⟩

/-- C1 witness: a concrete real-time message, failing fetch and
answering chat session. -/
theorem realtime_search_error_note_witness :
    is_real_time_query "bitcoin price" = true ∧
    fetch_search_results (.requestError "timeout") =
      .error "Error fetching search results: timeout" ∧
    compose_prompt "bitcoin price" (.requestError "timeout") =
      "bitcoin price" ++ "\n\n" ++ "Note: Could not fetch real-time data due to error: " ++
        "Error fetching search results: timeout" ∧
    generate_response "bitcoin price" (.requestError "timeout")
      (fun _ => .ok "reply") = .ok "reply" := by
  have h := realtime_search_error_note "bitcoin price"
    "Error fetching search results: timeout" "reply" (.requestError "timeout")
    (fun _ => .ok "reply") (by decide) (by decide) rfl
  exact ⟨by decide, by decide, h.1, h.2⟩

/-- C3: for every real-time message and successful search response with
at least one item, the composed prompt is the message, a blank line,
the header, and the first `min(N, 3)` items formatted
`- title: snippet` and joined with newlines, in provider order. -/
theorem realtime_search_success_prompt (msg : String) (items : List SearchItem)
    (hrt : is_real_time_query msg = true) (hne : items ≠ []) :
    compose_prompt msg (.success items) =
      msg ++ "\n\n" ++ "Real-time data from search:\n" ++
        String.intercalate "\n"
          ((items.take 3).map (fun item => "- " ++ item.title ++ ": " ++ item.snippet)) := by
  have hne' : items.isEmpty = false := by
    cases items with
    | nil => exact absurd rfl hne
    | cons a l => rfl
  apply String.ext
  simp [compose_prompt, hrt, fetch_search_results, hne', List.append_assoc]

/-- C3 witness: a concrete real-time message and a two-item response. -/
theorem realtime_search_success_prompt_witness :
    is_real_time_query "weather in Paris today" = true ∧
    ([⟨"A", "sunny"⟩, ⟨"B", "rain"⟩] : List SearchItem) ≠ [] ∧
    compose_prompt "weather in Paris today"
        (.success [⟨"A", "sunny"⟩, ⟨"B", "rain"⟩]) =
      "weather in Paris today" ++ "\n\n" ++ "Real-time data from search:\n" ++
        String.intercalate "\n" ["- A: sunny", "- B: rain"] := by
  refine ⟨by decide, by decide, ?_⟩
  rw [realtime_search_success_prompt "weather in Paris today"
    [⟨"A", "sunny"⟩, ⟨"B", "rain"⟩] (by decide) (by decide)]
  decide

/-- C4: for every real-time message, a successful search call with zero
result items composes the prompt as the message, a blank line and the
exact sentinel "No relevant search results found.". -/
theorem realtime_search_empty_sentinel (msg : String)
    (hrt : is_real_time_query msg = true) :
    compose_prompt msg (.success []) =
      msg ++ "\n\n" ++ "No relevant search results found." := by
  simp [compose_prompt, hrt, fetch_search_results]

/-- C4 witness: a concrete real-time message with an empty result list. -/
theorem realtime_search_empty_sentinel_witness :
    is_real_time_query "gold price" = true ∧
    compose_prompt "gold price" (.success []) =
      "gold price" ++ "\n\n" ++ "No relevant search results found." :=
  ⟨by decide, realtime_search_empty_sentinel "gold price" (by decide)⟩

/-! ## Claims about the speech-to-image pipeline -/

/-- C7: `validate_audio` fails with the not-found error on a
nonexistent path, with the not-a-file error on an existing path that is
not a regular file, with the unreadable error (carrying the I/O error
text) when reading the first byte fails, and succeeds on every readable
regular file regardless of content. -/
theorem validate_audio_spec (p : String) :
    validate_audio p .absent = .error ("Audio file not found: " ++ p) ∧
    validate_audio p .notRegularFile = .error ("Path is not a file: " ++ p) ∧
    (∀ e, validate_audio p (.regularFile (.error e)) =
      .error ("Audio file not readable: " ++ e)) ∧
    validate_audio p (.regularFile (.ok ())) = .ok () :=
  ⟨rfl, rfl, fun _ => rfl, rfl⟩

/-- C9: `mask_key` turns a key of length at most 8 into an all-asterisk
string of the same length, and a longer key into its first 4
characters, asterisks for everything in between, and its last 4
characters, keeping the total length. -/
theorem mask_key_spec (key : String) :
    (key.length ≤ 8 → (mask_key key).data = List.replicate key.length '*') ∧
    (key.length > 8 →
      (mask_key key).data =
        key.data.take 4 ++ List.replicate (key.length - 8) '*' ++
          key.data.drop (key.length - 4) ∧
      (mask_key key).length = key.length) := by
  constructor
  · intro h
    have hn : ¬ key.length > 8 := by omega
    simp [mask_key, hn]
  · intro h
    have h1 : (mask_key key).data =
        key.data.take 4 ++ List.replicate (key.length - 8) '*' ++
          key.data.drop (key.length - 4) := by
      simp [mask_key, h]
    refine ⟨h1, ?_⟩
    have hlen : key.data.length = key.length := String.length_data key
    rw [show (mask_key key).length = (mask_key key).data.length from
      (String.length_data _).symm, h1]
    simp only [List.length_append, List.length_take, List.length_replicate,
      List.length_drop, hlen]
    omega

/-- C9 witness: a short key is fully masked; a 13-character key keeps
its first and last 4 characters. -/
theorem mask_key_spec_witness :
    (("short" : String).length ≤ 8 ∧
      (mask_key "short").data = List.replicate ("short" : String).length '*') ∧
    (("monsterapikey" : String).length > 8 ∧
      (mask_key "monsterapikey").data =
        ("monsterapikey" : String).data.take 4 ++
          List.replicate (("monsterapikey" : String).length - 8) '*' ++
          ("monsterapikey" : String).data.drop (("monsterapikey" : String).length - 4)) :=
  ⟨⟨by decide, (mask_key_spec "short").1 (by decide)⟩,
   ⟨by decide, ((mask_key_spec "monsterapikey").2 (by decide)).1⟩⟩

/-- C10: on a success transcription response whose parsed text field is
non-blank after stripping, `transcribe_audio` returns the text with
leading and trailing whitespace removed. -/
theorem transcribe_audio_trims (resp : TranscribeResp)
    (h200 : resp.status = 200)
    (hnb : py_strip (resp.textField.getD "") ≠ "") :
    transcribe_audio resp = .ok (py_strip (resp.textField.getD "")) := by
  simp [transcribe_audio, h200, hnb]

/-- C10 witness: a concrete response whose text field carries
surrounding whitespace. -/
theorem transcribe_audio_trims_witness :
    (⟨200, "", some "  a cat  "⟩ : TranscribeResp).status = 200 ∧
    py_strip (((⟨200, "", some "  a cat  "⟩ : TranscribeResp).textField).getD "") ≠ "" ∧
    transcribe_audio ⟨200, "", some "  a cat  "⟩ = .ok "a cat" := by
  refine ⟨rfl, by decide, ?_⟩
  rw [transcribe_audio_trims ⟨200, "", some "  a cat  "⟩ rfl (by decide)]
  decide

/-- C6 counterexample: a success generation response whose `output`
list is present but empty does not yield the "No image URL in
response." (MissingImageURL) failure: line 129's `[0]` indexing raises
`IndexError` instead. -/
theorem generate_image_empty_output_counterexample :
    (generate_image "p" ⟨200, "", some []⟩ 200 "out.png").result =
      .error "list index out of range" ∧
    (generate_image "p" ⟨200, "", some []⟩ 200 "out.png").result ≠
      .error "No image URL in response." := by
  refine ⟨rfl, by decide⟩

/-- C6 amended: `generate_image` fails with the generation-failed error
on a non-success generation status; with the missing-image-URL error
when the success response's `output` key is absent or its first element
is null or empty; with the download-failed error when the image fetch
returns a non-success status; but a success response with a present and
empty `output` list raises an index error, not the missing-image-URL
error. -/
theorem generate_image_failure_modes (prompt out : String) (resp : GenResp) (dl : Nat) :
    (resp.status ≠ 200 →
      (generate_image prompt resp dl out).result =
        .error ("Image generation failed: " ++ toString resp.status ++ " - " ++ resp.body)) ∧
    (resp.status = 200 → resp.output = none →
      (generate_image prompt resp dl out).result = .error "No image URL in response.") ∧
    (∀ rest, resp.status = 200 → resp.output = some (none :: rest) →
      (generate_image prompt resp dl out).result = .error "No image URL in response.") ∧
    (∀ rest, resp.status = 200 → resp.output = some (some "" :: rest) →
      (generate_image prompt resp dl out).result = .error "No image URL in response.") ∧
    (resp.status = 200 → resp.output = some [] →
      (generate_image prompt resp dl out).result = .error "list index out of range") ∧
    (∀ url rest, resp.status = 200 → resp.output = some (some url :: rest) →
      url ≠ "" → dl ≠ 200 →
      (generate_image prompt resp dl out).result = .error "Failed to download image.") := by
  refine ⟨?_, ?_, ?_, ?_, ?_, ?_⟩
  · intro h
    simp [generate_image, h]
  · intro h1 h2
    simp [generate_image, h1, h2]
  · intro rest h1 h2
    simp [generate_image, h1, h2]
  · intro rest h1 h2
    simp [generate_image, h1, h2]
  · intro h1 h2
    simp [generate_image, h1, h2]
  · intro url rest h1 h2 hurl hdl
    simp [generate_image, h1, h2, hurl, hdl]

/-- C6 witness: concrete runs hitting the generation-failed,
missing-URL and download-failed branches. -/
theorem generate_image_failure_modes_witness :
    ((500 : Nat) ≠ 200 ∧
      (generate_image "p" ⟨500, "boom", none⟩ 200 "o").result =
        .error ("Image generation failed: " ++ toString (500 : Nat) ++ " - " ++ "boom")) ∧
    (generate_image "p" ⟨200, "", none⟩ 200 "o").result =
      .error "No image URL in response." ∧
    (generate_image "p" ⟨200, "", some [some "u"]⟩ 404 "o").result =
      .error "Failed to download image." := by
  refine ⟨⟨by decide, ?_⟩, ?_, ?_⟩
  · exact (generate_image_failure_modes "p" "o" ⟨500, "boom", none⟩ 200).1 (by decide)
  · exact (generate_image_failure_modes "p" "o" ⟨200, "", none⟩ 200).2.1 rfl rfl
  · exact (generate_image_failure_modes "p" "o" ⟨200, "", some [some "u"]⟩ 404).2.2.2.2.2
      "u" [] rfl rfl (by decide) (by decide)

/-- C5 counterexample: dry-run on an existing, readable regular audio
file, but with no API key resolvable from the flag or the environment:
`get_api_key` raises before the dry-run branch is reached, so the
process exits with status 1, not 0. -/
theorem dry_run_no_key_counterexample :
    (⟨"a.mp3", "output.png", none, true⟩ : Args).dry_run = true ∧
    (fun _ => FileKind.regularFile (.ok ())) "a.mp3" = FileKind.regularFile (.ok ()) ∧
    (run_main ⟨"a.mp3", "output.png", none, true⟩ ⟨none⟩
      ⟨fun _ => .regularFile (.ok ()), ⟨200, "", some "t"⟩,
        ⟨200, "", some [some "u"]⟩, 200⟩).exitCode = 1 :=
  ⟨rfl, rfl, rfl⟩

/-- C5 amended: with an API key resolvable from `--api_key` or the
environment, a dry-run invocation on an existing, readable regular
audio file performs zero network calls and exits with status 0. -/
theorem dry_run_success (args : Args) (env : Env) (w : World) (key : String)
    (hdry : args.dry_run = true)
    (hkey : get_api_key args.api_key env.monster_api_key = .ok key)
    (hfile : w.fs args.audio = .regularFile (.ok ())) :
    (run_main args env w).exitCode = 0 ∧ (run_main args env w).networkCalls = 0 := by
  simp [run_main, hkey, hdry, validate_audio, hfile]

/-- C5 witness: a concrete dry-run with a key given on the command
line and a readable audio file. -/
theorem dry_run_success_witness :
    (⟨"a.mp3", "output.png", some "k123", true⟩ : Args).dry_run = true ∧
    get_api_key (some "k123") none = .ok "k123" ∧
    (fun _ => FileKind.regularFile (.ok ())) "a.mp3" = FileKind.regularFile (.ok ()) ∧
    (run_main ⟨"a.mp3", "output.png", some "k123", true⟩ ⟨none⟩
      ⟨fun _ => .regularFile (.ok ()), ⟨200, "", some "t"⟩,
        ⟨200, "", some [some "u"]⟩, 200⟩).exitCode = 0 ∧
    (run_main ⟨"a.mp3", "output.png", some "k123", true⟩ ⟨none⟩
      ⟨fun _ => .regularFile (.ok ()), ⟨200, "", some "t"⟩,
        ⟨200, "", some [some "u"]⟩, 200⟩).networkCalls = 0 := by
  have h := dry_run_success ⟨"a.mp3", "output.png", some "k123", true⟩ ⟨none⟩
    ⟨fun _ => .regularFile (.ok ()), ⟨200, "", some "t"⟩,
      ⟨200, "", some [some "u"]⟩, 200⟩ "k123" rfl (by decide) rfl
  exact ⟨rfl, by decide, rfl, h.1, h.2⟩

/-- C8: every invocation whose `--audio` path does not exist exits with
status 1, writes exactly one error line to stderr, and does not create
the output image file. -/
theorem missing_audio_exits_one (args : Args) (env : Env) (w : World)
    (habs : w.fs args.audio = .absent) :
    (run_main args env w).exitCode = 1 ∧
    (run_main args env w).stderrLines.length = 1 ∧
    (run_main args env w).outputWritten = false := by
  cases hk : get_api_key args.api_key env.monster_api_key with
  | error e => simp [run_main, hk]
  | ok key =>
    cases hdry : args.dry_run with
    | true => simp [run_main, hk, hdry, validate_audio, habs]
    | false => simp [run_main, hk, hdry, validate_audio, habs]

/-- C8 witness: a concrete invocation naming a missing audio file. -/
theorem missing_audio_exits_one_witness :
    (fun _ => FileKind.absent) "missing.mp3" = FileKind.absent ∧
    (run_main ⟨"missing.mp3", "output.png", some "k123", false⟩ ⟨none⟩
      ⟨fun _ => .absent, ⟨200, "", some "t"⟩,
        ⟨200, "", some [some "u"]⟩, 200⟩).exitCode = 1 ∧
    (run_main ⟨"missing.mp3", "output.png", some "k123", false⟩ ⟨none⟩
      ⟨fun _ => .absent, ⟨200, "", some "t"⟩,
        ⟨200, "", some [some "u"]⟩, 200⟩).stderrLines.length = 1 ∧
    (run_main ⟨"missing.mp3", "output.png", some "k123", false⟩ ⟨none⟩
      ⟨fun _ => .absent, ⟨200, "", some "t"⟩,
        ⟨200, "", some [some "u"]⟩, 200⟩).outputWritten = false := by
  have h := missing_audio_exits_one ⟨"missing.mp3", "output.png", some "k123", false⟩
    ⟨none⟩ ⟨fun _ => .absent, ⟨200, "", some "t"⟩, ⟨200, "", some [some "u"]⟩, 200⟩ rfl
  exact ⟨rfl, h.1, h.2.1, h.2.2⟩
